import Mathlib

/-!
Verification development for the club resource entitlement engine of
`src/server/services/club.service.ts`.

The service functions are shallowly embedded as pure Lean functions over an
explicit database state `Db`.  Prisma queries become list operations, thrown
errors become `Except.error`, and the handful of collaborator services that
live outside the provided sources (`common.service.ts`, `buzz.service.ts`,
the Prisma enums) are modelled from the specification, as marked on each
definition.
-/

/-- Modelled from the spec: the `SupportedClubEntities` union of
`club.schema.ts` (not under src) — the entity types a club can gate. -/
inductive EntityType
  | ModelVersion
  | Article
deriving DecidableEq, Repr

/-- Modelled from the spec: the Prisma `Availability` enum (not under src);
the denormalized Public/Private gate state of a resource. -/
inductive Availability
  | Public
  | Private
deriving DecidableEq, Repr

/-- Accessor kind of an `EntityAccess` row: the grantee is a whole club, a
single club tier, or (for grants created outside this service) a user. -/
inductive AccessorType
  | Club
  | ClubTier
  | User
deriving DecidableEq, Repr

/-- Modelled from the spec: the Prisma `ClubAdminPermission` enum (not under
src) — named capabilities held by a club admin row. -/
inductive ClubAdminPermission
  | ManageClub
  | ManageTiers
  | ManageResources
deriving DecidableEq, Repr

/-- One row of the `EntityAccess` table: `(accessToId, accessToType)` is the
gated resource, `(accessorId, accessorType)` the grantee. -/
structure EntityAccess where
  accessToId : Nat
  accessToType : EntityType
  accessorId : Nat
  accessorType : AccessorType
  addedById : Nat
deriving DecidableEq, Repr

/-- One row of the `ClubAdmin` table (the fields selected by
`userContributingClubs`). -/
structure ClubAdmin where
  clubId : Nat
  userId : Nat
  permissions : List ClubAdminPermission
deriving DecidableEq, Repr

/-- One row of the `Club` table (the fields this service touches), with its
admin rows inlined. -/
structure Club where
  id : Nat
  name : String
  userId : Nat
  unlisted : Bool
  admins : List ClubAdmin
deriving DecidableEq, Repr

/-- One row of the `ClubTier` table (the fields this service touches);
`memberCount` stands for the number of rows of the `memberships` relation. -/
structure ClubTier where
  id : Nat
  clubId : Nat
  name : String
  unitAmount : Nat
  unlisted : Bool
  joinable : Bool
  memberLimit : Option Nat
  memberCount : Nat
deriving DecidableEq, Repr

/-- Account kinds of the Buzz ledger service. -/
inductive AccountType
  | User
  | Club
deriving DecidableEq, Repr

/-- Transaction kinds of the Buzz ledger service (only `Tip` is used here). -/
inductive TxType
  | Tip
deriving DecidableEq, Repr

/-- Modelled from the spec: one ledger transaction recorded by the black-box
`createBuzzTransaction` call of `buzz.service.ts` (not under src). -/
structure BuzzTx where
  toAccountId : Nat
  fromAccountId : Nat
  fromAccountType : AccountType
  txType : TxType
  amount : Nat
deriving DecidableEq, Repr

/-- The database state: the tables read and written by the service, plus the
state of the external collaborators the spec treats as black boxes
(ownership resolver, availability flags, Buzz accounts and ledger). -/
structure Db where
  clubs : List Club
  clubTiers : List ClubTier
  entityAccess : List EntityAccess
  avail : List (EntityType × Nat × Availability)
  entityOwners : List (EntityType × Nat × Nat)
  clubBuzz : List (Nat × Nat)
  ledger : List BuzzTx
  nextTierId : Nat
deriving DecidableEq, Repr

/-- Errors thrown by the service (`errorHandling.ts` helpers), plus the
JavaScript `TypeError` raised by a property access on `undefined`. -/
inductive SvcError
  | authorizationError (msg : String)
  | badRequestError (msg : String)
  | notFoundError
  | typeError
deriving DecidableEq, Repr

instance {ε α : Type} [DecidableEq ε] [DecidableEq α] : DecidableEq (Except ε α) := fun a b =>
  match a, b with
  | .ok x, .ok y =>
    if h : x = y then isTrue (by rw [h]) else isFalse (fun c => h (Except.ok.inj c))
  | .error x, .error y =>
    if h : x = y then isTrue (by rw [h]) else isFalse (fun c => h (Except.error.inj c))
  | .ok _, .error _ => isFalse (fun c => Except.noConfusion c)
  | .error _, .ok _ => isFalse (fun c => Except.noConfusion c)

/-- Modelled from the spec: `entityOwnership` of `common.service.ts` (not
under src).  Per spec section 4.1, resource ownership is resolved externally,
resource-type-specifically, and returned as an `isOwner` flag; we model the
resolver as a lookup in an ownership table carried by the state. -/
def entityOwnership (db : Db) (userId : Nat) (ty : EntityType) (eid : Nat) : Bool :=
  db.entityOwners.any (fun e => e.1 == ty && e.2.1 == eid && e.2.2 == userId)

/-- Modelled from the spec: `entityAvailabilityUpdate` of `common.service.ts`
(not under src).  Per spec section 6 it is the single external call
`setAvailability(entityType, entityIds, Public|Private)`; we record the
newest flag at the head of the `avail` list. -/
def entityAvailabilityUpdate (db : Db) (ty : EntityType) (eids : List Nat)
    (a : Availability) : Db :=
  { db with avail := eids.map (fun e => (ty, e, a)) ++ db.avail }

/-- Current availability flag of a resource: newest recorded entry, and
`Public` for a resource never written (new resources start public). -/
def getAvail (db : Db) (ty : EntityType) (eid : Nat) : Availability :=
  match db.avail.find? (fun e => e.1 == ty && e.2.1 == eid) with
  | some e => e.2.2
  | none => Availability.Public

/-- The `EntityAccess` rows of one resource, of any accessor type. -/
def grantsFor (db : Db) (ty : EntityType) (eid : Nat) : List EntityAccess :=
  db.entityAccess.filter (fun a => a.accessToId == eid && a.accessToType == ty)

/-- Projection of `userContributingClubs`: a club row restricted to the
selected fields, with `admin` the first admin row matching the user. -/
structure ContributingClub where
  id : Nat
  name : String
  userId : Nat
  admin : Option ClubAdmin
deriving DecidableEq, Repr

/-- Embedding of `userContributingClubs`: the clubs the user owns or
administers, optionally restricted to `clubIds` (note that a present-but-empty
id list matches no club, exactly like Prisma `{ in: [] }`). -/
def userContributingClubs (db : Db) (userId : Nat) (clubIds : Option (List Nat)) :
    List ContributingClub :=
  (db.clubs.filter (fun club =>
      (match clubIds with
       | some ids => ids.contains club.id
       | none => true) &&
      (club.userId == userId || club.admins.any (fun a => a.userId == userId)))).map
    (fun club =>
      { id := club.id
        name := club.name
        userId := club.userId
        admin := (club.admins.filter (fun a => a.userId == userId)).head? })

/-- A desired club scope entry of `upsertClubResource`: a club id plus an
optional tier id list (`none`/empty means a general club-level grant). -/
structure ClubEntry where
  clubId : Nat
  clubTierIds : Option (List Nat)
deriving DecidableEq, Repr

/-- One club of the read-side projection of a resource: the club id and the
tier ids of that club gating the resource. -/
structure ClubDetail where
  clubId : Nat
  clubTierIds : List Nat
deriving DecidableEq, Repr

/-- Modelled from the spec: `getClubDetailsForResource` delegates to
`entityRequiresClub` of `common.service.ts` (not under src).  Per spec
section 4.4 the read-side projection returns, for a resource, the clubs
currently gating it and, per club, the tier ids gating it: a club appears
when the resource has a Club-accessor grant for it or a ClubTier-accessor
grant for one of its tiers.
The accessor ids of the Club-type grant rows of a resource. -/
def resourceClubGrantIds (db : Db) (ty : EntityType) (eid : Nat) : List Nat :=
  ((grantsFor db ty eid).filter (fun a => a.accessorType == AccessorType.Club)).map
    (fun a => a.accessorId)

/-- The accessor ids of the ClubTier-type grant rows of a resource. -/
def resourceTierGrantIds (db : Db) (ty : EntityType) (eid : Nat) : List Nat :=
  ((grantsFor db ty eid).filter (fun a => a.accessorType == AccessorType.ClubTier)).map
    (fun a => a.accessorId)

/-- The clubs gating a resource: those with a club-level grant plus the
owners of granted tiers. -/
def resourceGatingClubIds (db : Db) (ty : EntityType) (eid : Nat) : List Nat :=
  (resourceClubGrantIds db ty eid
    ++ (db.clubTiers.filter
        (fun t => (resourceTierGrantIds db ty eid).contains t.id)).map
      (fun t => t.clubId)).dedup

def getClubDetailsForResource (db : Db) (ty : EntityType) (eid : Nat) : List ClubDetail :=
  (resourceGatingClubIds db ty eid).map (fun cid =>
    { clubId := cid
      clubTierIds := (db.clubTiers.filter
          (fun t => t.clubId == cid &&
            (resourceTierGrantIds db ty eid).contains t.id)).map (fun t => t.id) })

/-- The `deleteMany` predicate shared by the entitlement mutations: a row of
the resource whose accessor is a Club in `clubIds` or a ClubTier in
`tierIds`. -/
def inDeleteSpace (ty : EntityType) (eid : Nat) (clubIds tierIds : List Nat)
    (a : EntityAccess) : Bool :=
  a.accessToId == eid && a.accessToType == ty &&
    ((a.accessorType == AccessorType.Club && clubIds.contains a.accessorId) ||
     (a.accessorType == AccessorType.ClubTier && tierIds.contains a.accessorId))

/-- A general club-level grant row as inserted by the service. -/
def clubGrantRow (ty : EntityType) (eid userId clubId : Nat) : EntityAccess :=
  { accessToId := eid
    accessToType := ty
    accessorId := clubId
    accessorType := AccessorType.Club
    addedById := userId }

/-- A tier-level grant row as inserted by the service. -/
def tierGrantRow (ty : EntityType) (eid userId tierId : Nat) : EntityAccess :=
  { accessToId := eid
    accessToType := ty
    accessorId := tierId
    accessorType := AccessorType.ClubTier
    addedById := userId }

/-- The ids of all current tiers of the clubs in `clubIds`
(`clubTier.findMany({ where: { clubId: { in: clubIds } } })`). -/
def requestedTierIds (db : Db) (clubIds : List Nat) : List Nat :=
  (db.clubTiers.filter (fun t => clubIds.contains t.clubId)).map (fun t => t.id)

/-- The ids of all current tiers of one club. -/
def clubTierIdsOf (db : Db) (clubId : Nat) : List Nat :=
  (db.clubTiers.filter (fun t => t.clubId == clubId)).map (fun t => t.id)

/-- The shared tail of the empty-list path of `upsertClubResource` and of
`removeClubResource`: after the scoped delete, check whether any access row
of the resource remains (`entityAccess.findFirst`); if some other access type
is still there, stop, otherwise flip the resource to `Public`. -/
def revertIfNoAccess (db : Db) (ty : EntityType) (eid : Nat) : Db :=
  if db.entityAccess.any (fun a => a.accessToId == eid && a.accessToType == ty) then db
  else entityAvailabilityUpdate db ty [eid] Availability.Public

/-- The empty-club-list branch of `upsertClubResource`: delete every Club and
ClubTier grant of the resource in the id-space reported by
`getClubDetailsForResource`, then revert to public if nothing remains. -/
def upsertEmptyResult (db : Db) (ty : EntityType) (eid : Nat) : Db :=
  let details := getClubDetailsForResource db ty eid
  let db1 := { db with
    entityAccess := db.entityAccess.filter (fun a =>
      !(inDeleteSpace ty eid (details.map (fun d => d.clubId))
          ((details.map (fun d => d.clubTierIds)).flatten) a)) }
  revertIfNoAccess db1 ty eid

/-- The non-empty branch of `upsertClubResource`: inside one transaction,
delete the Club/ClubTier grants of the resource restricted to the requested
club ids and all current tier ids of the requested clubs, insert the new
club-level and tier-level grants, and flip the resource to `Private`. -/
def upsertNonemptyResult (db : Db) (userId : Nat) (ty : EntityType) (eid : Nat)
    (clubs : List ClubEntry) : Db :=
  let clubIds := clubs.map (fun c => c.clubId)
  let db1 := { db with
    entityAccess := db.entityAccess.filter (fun a =>
      !(inDeleteSpace ty eid clubIds (requestedTierIds db clubIds) a)) }
  let clubAccessIds := (clubs.filter (fun c => (c.clubTierIds.getD []).isEmpty)).map
    (fun c => c.clubId)
  let tierAccessIds := (clubs.filter (fun c => !(c.clubTierIds.getD []).isEmpty)).flatMap
    (fun c => c.clubTierIds.getD [])
  let db2 := { db1 with
    entityAccess := db1.entityAccess
      ++ clubAccessIds.map (clubGrantRow ty eid userId)
      ++ tierAccessIds.map (tierGrantRow ty eid userId) }
  entityAvailabilityUpdate db2 ty [eid] Availability.Private

/-- Embedding of `upsertClubResource`: authorization (resource owner or
moderator, and contributing member of every requested club or moderator),
then either the empty-list revert-to-public path or the delete-then-insert
grant replacement. -/
def upsertClubResource (db : Db) (userId : Nat) (isModerator : Bool)
    (entityType : EntityType) (entityId : Nat) (clubs : List ClubEntry) :
    Except SvcError Db :=
  let isOwner := entityOwnership db userId entityType entityId
  if !isModerator && !isOwner then
    .error (.authorizationError "You do not have permission to add this resource to a club")
  else
    let clubIds := clubs.map (fun c => c.clubId)
    let contributingClubs := userContributingClubs db userId (some clubIds)
    if !isModerator && clubIds.any (fun c => !(contributingClubs.any (fun cc => cc.id == c))) then
      .error (.authorizationError
        "You do not have permission to add this resource to one of the provided clubs")
    else if clubIds.isEmpty then
      .ok (upsertEmptyResult db entityType entityId)
    else
      .ok (upsertNonemptyResult db userId entityType entityId clubs)

/-- The write phase of `updateClubResource`: delete the one club-level grant
and every grant on any current tier of that club, then insert either a single
general club-level grant (empty/absent tier list) or the tier-level grants;
the availability flag is not touched. -/
def updateResult (db : Db) (userId : Nat) (ty : EntityType) (eid clubId : Nat)
    (clubTierIds : Option (List Nat)) : Db :=
  let db1 := { db with
    entityAccess := db.entityAccess.filter (fun a =>
      !(inDeleteSpace ty eid [clubId] (clubTierIdsOf db clubId) a)) }
  if (clubTierIds.getD []).isEmpty then
    { db1 with entityAccess := db1.entityAccess ++ [clubGrantRow ty eid userId clubId] }
  else
    { db1 with entityAccess := db1.entityAccess
        ++ (clubTierIds.getD []).map (tierGrantRow ty eid userId) }

/-- Embedding of `updateClubResource`: authorization as for
`upsertClubResource` but scoped to exactly one club, then the replace of that
club's grants. -/
def updateClubResource (db : Db) (userId : Nat) (isModerator : Bool)
    (entityType : EntityType) (entityId clubId : Nat)
    (clubTierIds : Option (List Nat)) : Except SvcError Db :=
  let isOwner := entityOwnership db userId entityType entityId
  if !isModerator && !isOwner then
    .error (.authorizationError "You do not have permission to add this resource to a club")
  else
    let contributingClubs := userContributingClubs db userId (some [clubId])
    if !isModerator && !(contributingClubs.any (fun cc => cc.id == clubId)) then
      .error (.authorizationError
        "You do not have permission to add this resource to one of the provided clubs")
    else
      .ok (updateResult db userId entityType entityId clubId clubTierIds)

/-- The `canRemoveResource` disjunction of `removeClubResource`, with
JavaScript short-circuit semantics: the last disjunct reads `userClub.admin`
without optional chaining, so when `userClub` is `undefined` and no earlier
disjunct is true it raises a `TypeError`. -/
def canRemoveResource (isModerator isOwner : Bool) (userId : Nat)
    (userClub : Option ContributingClub) : Except SvcError Bool :=
  if isModerator then .ok true
  else if isOwner then .ok true
  else if userClub.map (fun uc => uc.userId) == some userId then .ok true
  else
    match userClub with
    | none => .error SvcError.typeError
    | some uc =>
      .ok ((((uc.admin).map (fun a => a.permissions)).getD []).contains
        ClubAdminPermission.ManageResources)

/-- The write phase of `removeClubResource`: delete the club-level grant and
every grant on a current tier of that club; if no access row of any type
remains, flip the resource to `Public`. -/
def removeResult (db : Db) (ty : EntityType) (eid clubId : Nat) : Db :=
  let db1 := { db with
    entityAccess := db.entityAccess.filter (fun a =>
      !(inDeleteSpace ty eid [clubId] (clubTierIdsOf db clubId) a)) }
  revertIfNoAccess db1 ty eid

/-- Embedding of `removeClubResource`. -/
def removeClubResource (db : Db) (userId : Nat) (isModerator : Bool)
    (entityType : EntityType) (entityId clubId : Nat) : Except SvcError Db :=
  let userClub := (userContributingClubs db userId (some [clubId])).head?
  let isOwner := entityOwnership db userId entityType entityId
  match canRemoveResource isModerator isOwner userId userClub with
  | .error e => .error e
  | .ok canRemove =>
    if !canRemove then
      .error (.authorizationError
        "You do not have permission to remove this resource from this club")
    else
      .ok (removeResult db entityType entityId clubId)

/-- Tier input of `upsertClubTiers` (`UpsertClubTierInput`); `id` present
means update, absent means create. -/
structure UpsertClubTierInput where
  id : Option Nat
  name : String
  unitAmount : Nat
  unlisted : Bool
  joinable : Bool
  memberLimit : Option Nat
deriving DecidableEq, Repr

/-- The rows created by the `createMany` of `upsertClubTiers`, with fresh
sequential ids assigned by the store. -/
def createdTiers (startId clubId : Nat) (ts : List UpsertClubTierInput) : List ClubTier :=
  ts.enum.map (fun p =>
    { id := startId + p.1
      clubId := clubId
      name := p.2.name
      unitAmount := p.2.unitAmount
      unlisted := p.2.unlisted
      joinable := p.2.joinable
      memberLimit := p.2.memberLimit
      memberCount := 0 })

/-- One tier after the update phase of `upsertClubTiers`: each update input
with a matching id overwrites the data fields (`clubId` is destructured out
of the update payload and the membership relation is untouched). -/
def applyTierUpdates (toUpdate : List UpsertClubTierInput) (t : ClubTier) : ClubTier :=
  toUpdate.foldl (fun t u =>
    if u.id == some t.id then
      { t with
        name := u.name
        unitAmount := u.unitAmount
        unlisted := u.unlisted
        joinable := u.joinable
        memberLimit := u.memberLimit }
    else t) t

/-- Embedding of `upsertClubTiers`: the owner/moderator/ManageTiers check
(which throws `throwBadRequestError`), the delete-tier-with-members guard,
the scoped tier deletion, then creations and updates. -/
def upsertClubTiers (db : Db) (userId : Nat) (isModerator : Bool) (clubId : Nat)
    (tiers : List UpsertClubTierInput) (deleteTierIds : List Nat) : Except SvcError Db :=
  let userClub := (userContributingClubs db userId (some [clubId])).head?
  if !(userClub.map (fun uc => uc.userId) == some userId) && !isModerator &&
      !((((userClub.bind (fun uc => uc.admin)).map (fun a => a.permissions)).getD
          []).contains ClubAdminPermission.ManageTiers) then
    .error (.badRequestError "Only club owners can edit club tiers")
  else if !deleteTierIds.isEmpty &&
      db.clubTiers.any (fun t => deleteTierIds.contains t.id && !(t.memberCount == 0)) then
    .error (.badRequestError
      "Cannot delete tier with members. Please move the members out of this tier before deleting it.")
  else
    let db1 := if deleteTierIds.isEmpty then db
      else { db with clubTiers := db.clubTiers.filter (fun t => !(deleteTierIds.contains t.id)) }
    if tiers.isEmpty then .ok db1
    else
      let toCreate := tiers.filter (fun t => t.id == none)
      let db2 := { db1 with
        clubTiers := db1.clubTiers ++ createdTiers db1.nextTierId clubId toCreate
        nextTierId := db1.nextTierId + toCreate.length }
      let toUpdate := tiers.filter (fun t => !(t.id == none))
      if toUpdate.any (fun u => !(db2.clubTiers.any (fun t => u.id == some t.id))) then
        .error .notFoundError
      else
        .ok { db2 with clubTiers := db2.clubTiers.map (applyTierUpdates toUpdate) }

/-- Insertion step of the price sort used by `getClubTiers`
(`orderBy: { unitAmount: 'asc' }`). -/
def insertByAmount (t : ClubTier) : List ClubTier → List ClubTier
  | [] => [t]
  | u :: us =>
    if t.unitAmount ≤ u.unitAmount then t :: u :: us else u :: insertByAmount t us

/-- Stable sort of tiers by ascending price. -/
def sortByAmount : List ClubTier → List ClubTier
  | [] => []
  | t :: ts => insertByAmount t (sortByAmount ts)

/-- The tier `findMany` of `getClubTiers` with its four optional filters,
ordered by ascending price.  A `some` filter constrains the column, `none`
leaves it unconstrained, exactly like the `undefined` Prisma clauses. -/
def tierQuery (db : Db) (clubId : Option Nat) (clubIds : Option (List Nat))
    (listedOnly joinableOnly : Option Bool) (tierId : Option Nat) : List ClubTier :=
  sortByAmount (db.clubTiers.filter (fun t =>
    (match clubId with
     | some c => t.clubId == c
     | none =>
       match clubIds with
       | some ids => ids.contains t.clubId
       | none => true) &&
    (match listedOnly with
     | some b => t.unlisted == !b
     | none => true) &&
    (match joinableOnly with
     | some b => t.joinable == b
     | none => true) &&
    (match tierId with
     | some i => t.id == i
     | none => true)))

/-- The ids of the clubs the user owns or administers, as collected by
`getClubTiers` (empty for an anonymous caller). -/
def userClubIdsOf (db : Db) (userId : Option Nat) : List Nat :=
  ((match userId with
    | some u => userContributingClubs db u none
    | none => []) : List ContributingClub).map (fun c => c.id)

/-- Embedding of the visibility gate of `getClubTiers`: the source computes
`userClubIds.includes(clubId ?? -1)`, and -1 is never a club id, so a missing
`clubId` never matches. -/
def canViewAllTiers (db : Db) (userId : Option Nat) (isModerator : Bool)
    (clubId : Option Nat) (clubIds : Option (List Nat)) : Bool :=
  let userClubIds := userClubIdsOf db userId
  isModerator ||
    ((match clubId with
      | some c => userClubIds.contains c
      | none => false) &&
     !((clubIds.getD []).any (fun c => !(userClubIds.contains c))))

/-- Embedding of `getClubTiers`: early return on no queried club; callers who
cannot view all tiers have `listedOnly` and `joinableOnly` forced to true. -/
def getClubTiers (db : Db) (userId : Option Nat) (isModerator : Bool)
    (clubId : Option Nat) (clubIds : Option (List Nat))
    (listedOnly joinableOnly : Option Bool) (tierId : Option Nat) : List ClubTier :=
  if clubId == none && (clubIds.getD []).isEmpty then []
  else
    let forced := !(canViewAllTiers db userId isModerator clubId clubIds)
    let lo := if forced then some true else listedOnly
    let jo := if forced then some true else joinableOnly
    tierQuery db clubId clubIds lo jo tierId

/-- Modelled from the spec: the balance of a club Buzz account as returned by
the black-box `getUserBuzzAccount` of `buzz.service.ts` (not under src);
`none` when the account is absent. -/
def clubBuzzBalance (db : Db) (clubId : Nat) : Option Nat :=
  (db.clubBuzz.find? (fun e => e.1 == clubId)).map (fun e => e.2)

/-- Embedding of `deleteClub`: owner-or-moderator check, refund of a positive
Buzz balance to the owner via one ledger transaction, then deletion of the
club row. -/
def deleteClub (db : Db) (id userId : Nat) (isModerator : Bool) : Except SvcError Db :=
  match db.clubs.find? (fun c => c.id == id) with
  | none => .error .notFoundError
  | some club =>
    if !(club.userId == userId) && !isModerator then
      .error (.badRequestError "Only club owners can delete clubs")
    else
      let balance := (clubBuzzBalance db id).getD 0
      let db1 :=
        if 0 < balance then
          { db with ledger := db.ledger ++
              [{ toAccountId := club.userId
                 fromAccountId := club.id
                 fromAccountType := AccountType.Club
                 txType := TxType.Tip
                 amount := balance }] }
        else db
      .ok { db1 with clubs := db1.clubs.filter (fun c => !(c.id == id)) }

/-- The availability invariant of spec section 8: the denormalized flag of a
resource is `Public` exactly when the resource has zero grant rows of any
accessor type. -/
def availInvariant (db : Db) (ty : EntityType) (eid : Nat) : Prop :=
  getAvail db ty eid = Availability.Public ↔ grantsFor db ty eid = []

/-- Static shape of the write phase of a mutation, as written in the source:
whether the writes run inside a `dbWrite.$transaction` callback, and the
`maxWait`/`timeout` options passed to it (in milliseconds). -/
structure TxShape where
  wrappedInTransaction : Bool
  maxWait : Option Nat
  timeout : Option Nat
deriving DecidableEq, Repr

/-- The delete-then-insert grant replacement of `upsertClubResource` (lines
544-602): `dbWrite.$transaction(async (tx) => ...)` with no options object. -/
def upsertClubResourceReplaceTxShape : TxShape :=
  { wrappedInTransaction := true, maxWait := none, timeout := none }

/-- The empty-club-list revert-to-public path of `upsertClubResource` (lines
486-541): plain `dbWrite.entityAccess.*` calls, no transaction. -/
def upsertClubResourceEmptyPathTxShape : TxShape :=
  { wrappedInTransaction := false, maxWait := none, timeout := none }

/-- The write phase of `updateClubResource` (lines 813-858):
`dbWrite.$transaction` with no options object. -/
def updateClubResourceTxShape : TxShape :=
  { wrappedInTransaction := true, maxWait := none, timeout := none }

/-- The write phase of `removeClubResource` (lines 894-934):
`dbWrite.$transaction` with no options object. -/
def removeClubResourceTxShape : TxShape :=
  { wrappedInTransaction := true, maxWait := none, timeout := none }

/-- A standalone `upsertClubTiers` call (lines 271-374): `dbClient = tx ??
dbWrite`, so without a caller-supplied transaction every tier write goes
straight to `dbWrite`. -/
def upsertClubTiersStandaloneTxShape : TxShape :=
  { wrappedInTransaction := false, maxWait := none, timeout := none }

/-- The `updateClub` transaction (lines 168-205): `dbWrite.$transaction(...,
{ maxWait: 10000, timeout: 30000 })`. -/
def updateClubTxShape : TxShape :=
  { wrappedInTransaction := true, maxWait := some 10000, timeout := some 30000 }

/-- The `createClub` transaction (lines 221-266), which also covers the tier
bootstrap it runs through `upsertClubTiers` with `tx` supplied. -/
def createClubTxShape : TxShape :=
  { wrappedInTransaction := true, maxWait := some 10000, timeout := some 30000 }

/-- A mutation runs as one atomic unit with bounded wait/commit timeouts. -/
def singleBoundedTransaction (s : TxShape) : Prop :=
  s.wrappedInTransaction = true ∧ s.maxWait ≠ none ∧ s.timeout ≠ none

/-- True exactly on a thrown `AuthorizationError` result. -/
def resultIsAuthorizationError (r : Except SvcError Db) : Bool :=
  match r with
  | .error (.authorizationError _) => true
  | _ => false

/-! Basic projection lemmas about the embedded operations. -/

theorem entityAccess_availUpdate (db : Db) (ty : EntityType) (eids : List Nat)
    (v : Availability) : (entityAvailabilityUpdate db ty eids v).entityAccess = db.entityAccess :=
  rfl

theorem getAvail_availUpdate_self (db : Db) (ty : EntityType) (eid : Nat) (v : Availability) :
    getAvail (entityAvailabilityUpdate db ty [eid] v) ty eid = v := by
  simp [getAvail, entityAvailabilityUpdate, List.find?_cons_of_pos]

theorem filter_nil_iff_any_false (l : List EntityAccess) (p : EntityAccess → Bool) :
    l.filter p = [] ↔ l.any p = false := by
  rw [List.filter_eq_nil_iff, List.any_eq_false]

/-- Extraction lemma: a successful `upsertClubResource` with an empty club
list produced exactly the empty-branch state. -/
theorem upsertClubResource_ok_empty (db db' : Db) (u : Nat) (m : Bool)
    (ty : EntityType) (eid : Nat)
    (h : upsertClubResource db u m ty eid [] = .ok db') :
    db' = upsertEmptyResult db ty eid := by
  simp only [upsertClubResource] at h
  split_ifs at h
  all_goals
    first
      | exact (Except.ok.inj h).symm
      | exact Except.noConfusion h
      | simp_all

/-- Extraction lemma: a successful `upsertClubResource` with a non-empty club
list produced exactly the replace-branch state. -/
theorem upsertClubResource_ok_nonempty (db db' : Db) (u : Nat) (m : Bool)
    (ty : EntityType) (eid : Nat) (clubs : List ClubEntry) (hne : clubs ≠ [])
    (h : upsertClubResource db u m ty eid clubs = .ok db') :
    db' = upsertNonemptyResult db u ty eid clubs := by
  simp only [upsertClubResource] at h
  split_ifs at h
  all_goals
    first
      | exact (Except.ok.inj h).symm
      | exact Except.noConfusion h
      | (cases clubs with
          | nil => exact absurd rfl hne
          | cons c cs => simp_all)


/-- Extraction lemma for `updateClubResource`. -/
theorem updateClubResource_ok (db db' : Db) (u : Nat) (m : Bool)
    (ty : EntityType) (eid clubId : Nat) (tierIds : Option (List Nat))
    (h : updateClubResource db u m ty eid clubId tierIds = .ok db') :
    db' = updateResult db u ty eid clubId tierIds := by
  simp only [updateClubResource] at h
  split_ifs at h
  all_goals
    first
      | exact (Except.ok.inj h).symm
      | exact Except.noConfusion h
      | simp_all

/-- Extraction lemma for `removeClubResource`. -/
theorem removeClubResource_ok (db db' : Db) (u : Nat) (m : Bool)
    (ty : EntityType) (eid clubId : Nat)
    (h : removeClubResource db u m ty eid clubId = .ok db') :
    db' = removeResult db ty eid clubId := by
  simp only [removeClubResource] at h
  cases hcan : canRemoveResource m (entityOwnership db u ty eid) u
      ((userContributingClubs db u (some [clubId])).head?) with
  | error e => rw [hcan] at h; exact Except.noConfusion h
  | ok canRemove =>
    rw [hcan] at h
    dsimp only at h
    split_ifs at h
    all_goals
      first
        | exact (Except.ok.inj h).symm
        | exact Except.noConfusion h
        | simp_all

instance (db : Db) (ty : EntityType) (eid : Nat) : Decidable (availInvariant db ty eid) := by
  unfold availInvariant
  infer_instance

/-- The entity-access list produced by the replace branch, written out. -/
theorem upsertNonemptyResult_access (db : Db) (u : Nat) (ty : EntityType) (eid : Nat)
    (clubs : List ClubEntry) :
    (upsertNonemptyResult db u ty eid clubs).entityAccess =
      db.entityAccess.filter (fun a =>
        !(inDeleteSpace ty eid (clubs.map (fun c => c.clubId))
            (requestedTierIds db (clubs.map (fun c => c.clubId))) a))
      ++ ((clubs.filter (fun c => (c.clubTierIds.getD []).isEmpty)).map
          (fun c => c.clubId)).map (clubGrantRow ty eid u)
      ++ ((clubs.filter (fun c => !(c.clubTierIds.getD []).isEmpty)).flatMap
          (fun c => c.clubTierIds.getD [])).map (tierGrantRow ty eid u) := rfl

/-- The replace branch flips the resource to Private. -/
theorem upsertNonemptyResult_avail (db : Db) (u : Nat) (ty : EntityType) (eid : Nat)
    (clubs : List ClubEntry) :
    getAvail (upsertNonemptyResult db u ty eid clubs) ty eid = Availability.Private :=
  getAvail_availUpdate_self _ ty eid _

/-- After a replace with a non-empty club list the resource has at least one
grant row: the head entry contributes a club-level or a tier-level row. -/
theorem upsertNonemptyResult_gated (db : Db) (u : Nat) (ty : EntityType) (eid : Nat)
    (c : ClubEntry) (cs : List ClubEntry) :
    grantsFor (upsertNonemptyResult db u ty eid (c :: cs)) ty eid ≠ [] := by
  have hacc := upsertNonemptyResult_access db u ty eid (c :: cs)
  unfold grantsFor
  rw [hacc]
  by_cases hc : (c.clubTierIds.getD []).isEmpty = true
  · refine List.ne_nil_of_mem (a := clubGrantRow ty eid u c.clubId) ?_
    refine List.mem_filter.mpr ⟨?_, by simp [clubGrantRow]⟩
    refine List.mem_append.mpr (Or.inl (List.mem_append.mpr (Or.inr ?_)))
    refine List.mem_map.mpr ⟨c.clubId, ?_, rfl⟩
    refine List.mem_map.mpr ⟨c, ?_, rfl⟩
    exact List.mem_filter.mpr ⟨List.mem_cons_self c cs, hc⟩
  · have hnil : c.clubTierIds.getD [] ≠ [] := by
      intro hn
      rw [hn] at hc
      simp at hc
    obtain ⟨t, ht⟩ := List.exists_mem_of_ne_nil _ hnil
    refine List.ne_nil_of_mem (a := tierGrantRow ty eid u t) ?_
    refine List.mem_filter.mpr ⟨?_, by simp [tierGrantRow]⟩
    refine List.mem_append.mpr (Or.inr ?_)
    refine List.mem_map.mpr ⟨t, ?_, rfl⟩
    refine List.mem_flatMap.mpr ⟨c, ?_, ht⟩
    refine List.mem_filter.mpr ⟨List.mem_cons_self c cs, ?_⟩
    rw [Bool.not_eq_true] at hc
    simp [hc]

/-- The one-club replace of `updateClubResource` never touches the
availability flag. -/
theorem updateResult_avail (db : Db) (u : Nat) (ty : EntityType) (eid clubId : Nat)
    (tierIds : Option (List Nat)) :
    getAvail (updateResult db u ty eid clubId tierIds) ty eid = getAvail db ty eid := by
  unfold updateResult
  split_ifs <;> rfl

/-- After the one-club replace the resource has at least one grant row. -/
theorem updateResult_gated (db : Db) (u : Nat) (ty : EntityType) (eid clubId : Nat)
    (tierIds : Option (List Nat)) :
    grantsFor (updateResult db u ty eid clubId tierIds) ty eid ≠ [] := by
  unfold updateResult grantsFor
  split_ifs with hc
  · refine List.ne_nil_of_mem (a := clubGrantRow ty eid u clubId) ?_
    refine List.mem_filter.mpr ⟨?_, by simp [clubGrantRow]⟩
    simp
  · have hnil : tierIds.getD [] ≠ [] := by
      intro hn
      rw [hn] at hc
      simp at hc
    obtain ⟨t, ht⟩ := List.exists_mem_of_ne_nil _ hnil
    refine List.ne_nil_of_mem (a := tierGrantRow ty eid u t) ?_
    refine List.mem_filter.mpr ⟨?_, by simp [tierGrantRow]⟩
    exact List.mem_append.mpr (Or.inr (List.mem_map.mpr ⟨t, ht, rfl⟩))

/-- Preservation of the availability invariant by the shared
delete-then-revert-if-empty tail. -/
theorem revertIfNoAccess_invariant (db : Db) (ty : EntityType) (eid : Nat)
    (p : EntityAccess → Bool) (hinv : availInvariant db ty eid) :
    availInvariant
      (revertIfNoAccess { db with entityAccess := db.entityAccess.filter p } ty eid) ty eid := by
  unfold revertIfNoAccess availInvariant
  split_ifs with hany
  · obtain ⟨a, ha, hpa⟩ := List.any_eq_true.mp hany
    have hadb : a ∈ db.entityAccess := (List.mem_filter.mp ha).1
    have hgr : a ∈ grantsFor db ty eid := List.mem_filter.mpr ⟨hadb, hpa⟩
    have hgr1 : a ∈ grantsFor { db with entityAccess := db.entityAccess.filter p } ty eid :=
      List.mem_filter.mpr ⟨ha, hpa⟩
    constructor
    · intro hpub
      have hd : grantsFor db ty eid = [] := hinv.mp hpub
      rw [hd] at hgr
      exact absurd hgr (List.not_mem_nil a)
    · intro hnil
      rw [hnil] at hgr1
      exact absurd hgr1 (List.not_mem_nil a)
  · constructor
    · intro _
      show (db.entityAccess.filter p).filter
          (fun a => a.accessToId == eid && a.accessToType == ty) = []
      exact (filter_nil_iff_any_false _ _).mpr (Bool.eq_false_iff.mpr hany)
    · intro _
      exact getAvail_availUpdate_self _ ty eid Availability.Public

/-- Claim C1 (amended): after every completed `upsertClubResource` and
`removeClubResource` call the invariant "availability is Public iff the
resource has zero EntityAccess rows of any accessor type" is preserved: if
it held for the resource before the call, it holds after.  A completed
`updateClubResource` call preserves it only when the resource already held
at least one grant row: `updateClubResource` never writes the availability
flag, so on a grant-free (Public) resource it inserts grant rows while the
flag stays Public. -/
theorem clubResource_availability_invariant (db : Db) (userId : Nat) (isMod : Bool)
    (ty : EntityType) (eid : Nat) :
    (∀ (clubs : List ClubEntry) (db2 : Db),
        upsertClubResource db userId isMod ty eid clubs = .ok db2 →
        availInvariant db ty eid → availInvariant db2 ty eid)
  ∧ (∀ (clubId : Nat) (db2 : Db),
        removeClubResource db userId isMod ty eid clubId = .ok db2 →
        availInvariant db ty eid → availInvariant db2 ty eid)
  ∧ (∀ (clubId : Nat) (tierIds : Option (List Nat)) (db2 : Db),
        updateClubResource db userId isMod ty eid clubId tierIds = .ok db2 →
        availInvariant db ty eid → grantsFor db ty eid ≠ [] →
        availInvariant db2 ty eid) := by
  refine ⟨?_, ?_, ?_⟩
  · intro clubs db2 h hinv
    cases clubs with
    | nil =>
      rw [upsertClubResource_ok_empty db db2 userId isMod ty eid h]
      exact revertIfNoAccess_invariant db ty eid _ hinv
    | cons c cs =>
      rw [upsertClubResource_ok_nonempty db db2 userId isMod ty eid (c :: cs) (by simp) h]
      unfold availInvariant
      constructor
      · intro hpub
        rw [upsertNonemptyResult_avail] at hpub
        exact absurd hpub (by simp)
      · intro hnil
        exact absurd hnil (upsertNonemptyResult_gated db userId ty eid c cs)
  · intro clubId db2 h hinv
    rw [removeClubResource_ok db db2 userId isMod ty eid clubId h]
    exact revertIfNoAccess_invariant db ty eid _ hinv
  · intro clubId tierIds db2 h hinv hne
    rw [updateClubResource_ok db db2 userId isMod ty eid clubId tierIds h]
    unfold availInvariant
    constructor
    · intro hpub
      rw [updateResult_avail] at hpub
      exact absurd (hinv.mp hpub) hne
    · intro hnil
      exact absurd hnil (updateResult_gated db userId ty eid clubId tierIds)

/-- An empty database: no clubs, tiers, grants or availability records; a
fresh resource is Public with zero grants, so the invariant holds. -/
def dbC1 : Db :=
  { clubs := [], clubTiers := [], entityAccess := [], avail := [],
    entityOwners := [], clubBuzz := [], ledger := [], nextTierId := 1 }

/-- The state produced by `updateClubResource dbC1 1 true ModelVersion 10 1
none` (a moderator moving a grant-free resource under club 1). -/
def dbC1after : Db := updateResult dbC1 1 EntityType.ModelVersion 10 1 none

/-- Claim C1 counterexample: a completed `updateClubResource` call on a
resource with zero grants and a Public flag inserts a club-level grant row
but never writes the availability flag, so afterwards the flag is Public
while one grant row exists — the Public-iff-zero-grants equivalence fails
even though it held before the call. -/
theorem updateClubResource_availability_counterexample :
    availInvariant dbC1 EntityType.ModelVersion 10
    ∧ updateClubResource dbC1 1 true EntityType.ModelVersion 10 1 none = .ok dbC1after
    ∧ getAvail dbC1after EntityType.ModelVersion 10 = Availability.Public
    ∧ grantsFor dbC1after EntityType.ModelVersion 10 ≠ [] :=
  ⟨by decide, by decide, by decide, by decide⟩

/-- Witness for `clubResource_availability_invariant` at a concrete input:
the empty-list upsert on the empty database preserves the invariant. -/
theorem clubResource_availability_invariant_witness :
    availInvariant (upsertEmptyResult dbC1 EntityType.ModelVersion 10)
      EntityType.ModelVersion 10 :=
  (clubResource_availability_invariant dbC1 1 true EntityType.ModelVersion 10).1 []
    (upsertEmptyResult dbC1 EntityType.ModelVersion 10) (by decide) (by decide)

/-- Claim C3: for every completed `upsertClubResource` call with a non-empty
club list, the surviving rows are exactly the previous rows outside the
delete id-space — Club rows with accessor in the requested club ids and
ClubTier rows with accessor among all current tier ids of the requested
clubs — and the inserted rows are the club-level grants of the tierless
entries followed by the tier-level grants of the tiered entries. -/
theorem upsertClubResource_replace_idspace (db db2 : Db) (userId : Nat) (isMod : Bool)
    (ty : EntityType) (eid : Nat) (clubs : List ClubEntry)
    (hne : clubs ≠ [])
    (h : upsertClubResource db userId isMod ty eid clubs = .ok db2) :
    db2.entityAccess =
      db.entityAccess.filter (fun a =>
        !(inDeleteSpace ty eid (clubs.map (fun c => c.clubId))
            (requestedTierIds db (clubs.map (fun c => c.clubId))) a))
      ++ ((clubs.filter (fun c => (c.clubTierIds.getD []).isEmpty)).map
          (fun c => c.clubId)).map (clubGrantRow ty eid userId)
      ++ ((clubs.filter (fun c => !(c.clubTierIds.getD []).isEmpty)).flatMap
          (fun c => c.clubTierIds.getD [])).map (tierGrantRow ty eid userId) := by
  rw [upsertClubResource_ok_nonempty db db2 userId isMod ty eid clubs hne h]
  exact upsertNonemptyResult_access db userId ty eid clubs

/-- Club 1 has tiers 11 and 12; resource 10 currently holds a single
tier-level grant for tier 11 and is owned by user 1. -/
def dbC3 : Db :=
  { clubs := [{ id := 1, name := "C", userId := 1, unlisted := false, admins := [] }]
    clubTiers :=
      [{ id := 11, clubId := 1, name := "T1", unitAmount := 10, unlisted := false,
         joinable := true, memberLimit := none, memberCount := 0 },
       { id := 12, clubId := 1, name := "T2", unitAmount := 20, unlisted := false,
         joinable := true, memberLimit := none, memberCount := 0 }]
    entityAccess := [tierGrantRow EntityType.ModelVersion 10 1 11]
    avail := [(EntityType.ModelVersion, 10, Availability.Private)]
    entityOwners := [(EntityType.ModelVersion, 10, 1)]
    clubBuzz := []
    ledger := []
    nextTierId := 13 }

/-- The state after re-granting resource 10 to club 1 with no tier list. -/
def dbC3after : Db :=
  upsertNonemptyResult dbC3 1 EntityType.ModelVersion 10 [{ clubId := 1, clubTierIds := none }]

/-- Witness for `upsertClubResource_replace_idspace`: re-granting the
resource to club 1 generally removes the tier-11 grant and leaves a single
club-level grant — no leftover tier row. -/
theorem upsertClubResource_replace_idspace_witness :
    upsertClubResource dbC3 1 false EntityType.ModelVersion 10
        [{ clubId := 1, clubTierIds := none }] = .ok dbC3after
    ∧ dbC3after.entityAccess = [clubGrantRow EntityType.ModelVersion 10 1 1] :=
  ⟨by decide,
   by
    rw [upsertClubResource_replace_idspace dbC3 dbC3after 1 false EntityType.ModelVersion 10
        [{ clubId := 1, clubTierIds := none }] (by decide) (by decide)]
    decide⟩

/-- The grant rows of a resource belonging to one club's accessor id-space:
its club-level row or a row on one of its current tiers. -/
def inClubSpace (db : Db) (ty : EntityType) (eid clubId : Nat) (a : EntityAccess) : Bool :=
  a.accessToId == eid && a.accessToType == ty &&
    ((a.accessorType == AccessorType.Club && a.accessorId == clubId) ||
     (a.accessorType == AccessorType.ClubTier &&
      (clubTierIdsOf db clubId).contains a.accessorId))

/-- A row in club B's accessor space is outside the delete id-space of a
request that does not mention B and whose clubs' tier ids avoid B's tiers. -/
theorem inClubSpace_not_inDeleteSpace (db : Db) (ty : EntityType) (eid bClub : Nat)
    (clubs : List ClubEntry)
    (hB : ¬ bClub ∈ clubs.map (fun c => c.clubId))
    (hD1 : ∀ t ∈ clubTierIdsOf db bClub,
        ¬ t ∈ requestedTierIds db (clubs.map (fun c => c.clubId)))
    (a : EntityAccess) (hsp : inClubSpace db ty eid bClub a = true) :
    inDeleteSpace ty eid (clubs.map (fun c => c.clubId))
        (requestedTierIds db (clubs.map (fun c => c.clubId))) a = false := by
  simp only [inClubSpace] at hsp
  simp at hsp
  simp only [inDeleteSpace]
  simp
  obtain ⟨⟨hid, hty⟩, hacc2⟩ := hsp
  intro _ _
  constructor
  · intro hatClub x hx heq
    cases hacc2 with
    | inl hl => exact hB (List.mem_map.mpr ⟨x, hx, heq.trans hl.2⟩)
    | inr hr =>
      rw [hatClub] at hr
      simp at hr
  · intro hatTier
    cases hacc2 with
    | inl hl =>
      rw [hatTier] at hl
      simp at hl
    | inr hr => exact hD1 a.accessorId hr.2

/-- Claim C4: granting a resource to clubs not including club B (with B's
current tier ids disjoint from both the requested clubs' current tier ids
and the explicitly requested tier ids) leaves B's grant rows on the resource
unchanged, keeps any pre-existing B-space row, and adds the requested
grants — the resource ends up gated by both clubs. -/
theorem upsertClubResource_scoped_frame (db db2 : Db) (userId : Nat) (isMod : Bool)
    (ty : EntityType) (eid bClub : Nat) (clubs : List ClubEntry) (g : EntityAccess)
    (hne : clubs ≠ [])
    (hB : ¬ bClub ∈ clubs.map (fun c => c.clubId))
    (hD1 : ∀ t ∈ clubTierIdsOf db bClub,
        ¬ t ∈ requestedTierIds db (clubs.map (fun c => c.clubId)))
    (hD2 : ∀ c ∈ clubs, ∀ t ∈ c.clubTierIds.getD [], ¬ t ∈ clubTierIdsOf db bClub)
    (hg : g ∈ db.entityAccess) (hgB : inClubSpace db ty eid bClub g = true)
    (h : upsertClubResource db userId isMod ty eid clubs = .ok db2) :
    db2.entityAccess.filter (inClubSpace db ty eid bClub)
      = db.entityAccess.filter (inClubSpace db ty eid bClub)
    ∧ g ∈ db2.entityAccess
    ∧ (∀ c ∈ clubs,
        ((c.clubTierIds.getD []).isEmpty = true →
          clubGrantRow ty eid userId c.clubId ∈ db2.entityAccess)
        ∧ ∀ t ∈ c.clubTierIds.getD [], tierGrantRow ty eid userId t ∈ db2.entityAccess) := by
  have hacc := upsertClubResource_replace_idspace db db2 userId isMod ty eid clubs hne h
  have hclubRows : (((clubs.filter (fun c => (c.clubTierIds.getD []).isEmpty)).map
      (fun c => c.clubId)).map (clubGrantRow ty eid userId)).filter
        (inClubSpace db ty eid bClub) = [] := by
    rw [List.filter_eq_nil_iff]
    intro w hw
    obtain ⟨cid, hcid, hwEq⟩ := List.mem_map.mp hw
    obtain ⟨c, hc, hcidEq⟩ := List.mem_map.mp hcid
    subst hwEq
    subst hcidEq
    intro hsp
    simp only [inClubSpace, clubGrantRow] at hsp
    simp at hsp
    exact hB (hsp ▸ List.mem_map.mpr ⟨c, (List.mem_filter.mp hc).1, rfl⟩)
  have htierRows : (((clubs.filter (fun c => !(c.clubTierIds.getD []).isEmpty)).flatMap
      (fun c => c.clubTierIds.getD [])).map (tierGrantRow ty eid userId)).filter
        (inClubSpace db ty eid bClub) = [] := by
    rw [List.filter_eq_nil_iff]
    intro w hw
    obtain ⟨t, ht, hwEq⟩ := List.mem_map.mp hw
    obtain ⟨c, hc, htc⟩ := List.mem_flatMap.mp ht
    subst hwEq
    intro hsp
    simp only [inClubSpace, tierGrantRow] at hsp
    simp at hsp
    exact hD2 c (List.mem_filter.mp hc).1 t htc hsp
  have hdel : (db.entityAccess.filter (fun a =>
      !(inDeleteSpace ty eid (clubs.map (fun c => c.clubId))
          (requestedTierIds db (clubs.map (fun c => c.clubId))) a))).filter
        (inClubSpace db ty eid bClub)
      = db.entityAccess.filter (inClubSpace db ty eid bClub) := by
    rw [List.filter_filter]
    apply List.filter_congr
    intro a _
    by_cases hsp : inClubSpace db ty eid bClub a = true
    · rw [hsp, inClubSpace_not_inDeleteSpace db ty eid bClub clubs hB hD1 a hsp]
      simp
    · simp at hsp
      rw [hsp]
      simp
  refine ⟨?_, ?_, ?_⟩
  · rw [hacc, List.filter_append, List.filter_append, hclubRows, htierRows, hdel]
    simp
  · have hgsp : g ∈ db.entityAccess.filter (inClubSpace db ty eid bClub) :=
      List.mem_filter.mpr ⟨hg, hgB⟩
    have hgsp2 : g ∈ db2.entityAccess.filter (inClubSpace db ty eid bClub) := by
      rw [hacc, List.filter_append, List.filter_append, hclubRows, htierRows, hdel]
      simpa using hgsp
    exact (List.mem_filter.mp hgsp2).1
  · intro c hc
    constructor
    · intro hcEmpty
      rw [hacc]
      refine List.mem_append.mpr (Or.inl (List.mem_append.mpr (Or.inr ?_)))
      refine List.mem_map.mpr ⟨c.clubId, ?_, rfl⟩
      exact List.mem_map.mpr ⟨c, List.mem_filter.mpr ⟨hc, hcEmpty⟩, rfl⟩
    · intro t ht
      rw [hacc]
      refine List.mem_append.mpr (Or.inr ?_)
      refine List.mem_map.mpr ⟨t, ?_, rfl⟩
      refine List.mem_flatMap.mpr ⟨c, List.mem_filter.mpr ⟨hc, ?_⟩, ht⟩
      have hx : c.clubTierIds.getD [] ≠ [] := List.ne_nil_of_mem ht
      simp [List.isEmpty_iff, hx]


/-- The map of `getClubDetailsForResource` projects back to the gating club
ids. -/
theorem details_clubIds (db : Db) (ty : EntityType) (eid : Nat) :
    (getClubDetailsForResource db ty eid).map (fun d => d.clubId)
      = resourceGatingClubIds db ty eid := by
  unfold getClubDetailsForResource
  generalize resourceGatingClubIds db ty eid = l
  induction l with
  | nil => rfl
  | cons x xs ih =>
    simp only [List.map_cons]
    rw [ih]

/-- A ClubTier-type grant row of the resource appears in some club detail of
the projection exactly when its tier exists in the tier table. -/
theorem mem_details_tier (db : Db) (ty : EntityType) (eid : Nat) (a : EntityAccess)
    (ha : a ∈ db.entityAccess)
    (hm : (a.accessToId == eid && a.accessToType == ty) = true)
    (hat : a.accessorType = AccessorType.ClubTier) :
    (∃ d ∈ getClubDetailsForResource db ty eid, a.accessorId ∈ d.clubTierIds)
      ↔ ∃ x ∈ db.clubTiers, x.id = a.accessorId := by
  constructor
  · rintro ⟨d, hd, hmem⟩
    obtain ⟨cid, _, hdEq⟩ := List.mem_map.mp hd
    subst hdEq
    simp only at hmem
    obtain ⟨t, htf, htEq⟩ := List.mem_map.mp hmem
    exact ⟨t, (List.mem_filter.mp htf).1, htEq⟩
  · rintro ⟨t, htier, hid⟩
    have haT : a.accessorId ∈ resourceTierGrantIds db ty eid := by
      unfold resourceTierGrantIds
      refine List.mem_map.mpr ⟨a, List.mem_filter.mpr ⟨List.mem_filter.mpr ⟨ha, hm⟩, ?_⟩, rfl⟩
      simp [hat]
    have hcontains : (resourceTierGrantIds db ty eid).contains t.id = true := by
      rw [hid]
      exact List.elem_iff.mpr haT
    have hcid : t.clubId ∈ resourceGatingClubIds db ty eid := by
      unfold resourceGatingClubIds
      rw [List.mem_dedup]
      refine List.mem_append.mpr (Or.inr ?_)
      exact List.mem_map.mpr ⟨t, List.mem_filter.mpr ⟨htier, hcontains⟩, rfl⟩
    refine ⟨{ clubId := t.clubId
              clubTierIds := (db.clubTiers.filter
                (fun tr => tr.clubId == t.clubId &&
                  (resourceTierGrantIds db ty eid).contains tr.id)).map (fun tr => tr.id) },
            List.mem_map.mpr ⟨t.clubId, hcid, rfl⟩, ?_⟩
    simp only []
    refine List.mem_map.mpr ⟨t, List.mem_filter.mpr ⟨htier, ?_⟩, hid⟩
    simp
    exact List.elem_iff.mp hcontains

/-- For a row of the table, membership in the delete id-space derived from
`getClubDetailsForResource` is: the row targets the resource and is either
any Club-type grant, or a ClubTier-type grant whose tier exists in the tier
table — the principal plays no role. -/
theorem inDeleteSpace_details (db : Db) (ty : EntityType) (eid : Nat) (a : EntityAccess)
    (ha : a ∈ db.entityAccess) :
    inDeleteSpace ty eid ((getClubDetailsForResource db ty eid).map (fun d => d.clubId))
        (((getClubDetailsForResource db ty eid).map (fun d => d.clubTierIds)).flatten) a
      = (a.accessToId == eid && a.accessToType == ty &&
         (a.accessorType == AccessorType.Club ||
          (a.accessorType == AccessorType.ClubTier &&
           db.clubTiers.any (fun t => t.id == a.accessorId)))) := by
  by_cases hm : (a.accessToId == eid && a.accessToType == ty) = true
  · cases hat : a.accessorType with
    | Club =>
      have hmem : a.accessorId ∈ resourceGatingClubIds db ty eid := by
        unfold resourceGatingClubIds
        rw [List.mem_dedup]
        refine List.mem_append.mpr (Or.inl ?_)
        unfold resourceClubGrantIds
        refine List.mem_map.mpr ⟨a, List.mem_filter.mpr ⟨List.mem_filter.mpr ⟨ha, hm⟩, ?_⟩, rfl⟩
        simp [hat]
      simp [inDeleteSpace, hm, hat, details_clubIds, List.elem_iff, hmem]
    | ClubTier =>
      rw [Bool.eq_iff_iff]
      simp only [inDeleteSpace, hat]
      simp [hm]
      exact mem_details_tier db ty eid a ha hm hat
    | User =>
      simp [inDeleteSpace, hat, hm]
      rfl
  · have hm0 : (a.accessToId == eid && a.accessToType == ty) = false :=
      Bool.eq_false_iff.mpr hm
    simp [inDeleteSpace, hm0]

/-- The revert-if-no-access tail never touches the entity-access table. -/
theorem revertIfNoAccess_access (db : Db) (ty : EntityType) (eid : Nat) :
    (revertIfNoAccess db ty eid).entityAccess = db.entityAccess := by
  unfold revertIfNoAccess
  split_ifs <;> rfl

/-- The entity-access table after the empty-club-list branch. -/
theorem upsertEmptyResult_access (db : Db) (ty : EntityType) (eid : Nat) :
    (upsertEmptyResult db ty eid).entityAccess
      = db.entityAccess.filter (fun a =>
          !(inDeleteSpace ty eid
              ((getClubDetailsForResource db ty eid).map (fun d => d.clubId))
              (((getClubDetailsForResource db ty eid).map (fun d => d.clubTierIds)).flatten) a)) := by
  unfold upsertEmptyResult
  rw [revertIfNoAccess_access]

/-- Availability outcome of the revert-if-no-access tail: flipped to Public
when no access row of the resource remains, untouched otherwise. -/
theorem revertIfNoAccess_avail (db : Db) (ty : EntityType) (eid : Nat) :
    (grantsFor (revertIfNoAccess db ty eid) ty eid = [] →
        getAvail (revertIfNoAccess db ty eid) ty eid = Availability.Public)
    ∧ (grantsFor (revertIfNoAccess db ty eid) ty eid ≠ [] →
        getAvail (revertIfNoAccess db ty eid) ty eid = getAvail db ty eid) := by
  unfold revertIfNoAccess
  split_ifs with hany
  · constructor
    · intro hnil
      have hfalse : db.entityAccess.any
          (fun a => a.accessToId == eid && a.accessToType == ty) = false :=
        (filter_nil_iff_any_false _ _).mp hnil
      rw [hfalse] at hany
      exact absurd hany (by simp)
    · intro _
      rfl
  · constructor
    · intro _
      exact getAvail_availUpdate_self db ty eid Availability.Public
    · intro hne
      exact absurd ((filter_nil_iff_any_false _ _).mpr (Bool.eq_false_iff.mpr hany)) hne

/-- Claim C2 (amended): for every completed `upsertClubResource` call with an
empty club list, the rows deleted are the resource Club-type grants of every
gating club and the ClubTier-type grants whose tier exists in the tier
table — the delete id-space comes from `getClubDetailsForResource`, which
does not depend on the principal, so grants of clubs the principal does not
administer are deleted too; afterwards, if no grant of any accessor type
remains the resource is flipped to Public, otherwise the flag is untouched. -/
theorem upsertClubResource_empty_scope (db db2 : Db) (userId : Nat) (isMod : Bool)
    (ty : EntityType) (eid : Nat)
    (h : upsertClubResource db userId isMod ty eid [] = .ok db2) :
    db2.entityAccess = db.entityAccess.filter (fun a =>
        !(a.accessToId == eid && a.accessToType == ty &&
          (a.accessorType == AccessorType.Club ||
           (a.accessorType == AccessorType.ClubTier &&
            db.clubTiers.any (fun t => t.id == a.accessorId)))))
    ∧ (grantsFor db2 ty eid = [] → getAvail db2 ty eid = Availability.Public)
    ∧ (grantsFor db2 ty eid ≠ [] → getAvail db2 ty eid = getAvail db ty eid) := by
  rw [upsertClubResource_ok_empty db db2 userId isMod ty eid h]
  refine ⟨?_, ?_, ?_⟩
  · rw [upsertEmptyResult_access]
    apply List.filter_congr
    intro a ha
    rw [inDeleteSpace_details db ty eid a ha]
  · exact (revertIfNoAccess_avail _ ty eid).1
  · exact (revertIfNoAccess_avail _ ty eid).2


/-- Club 2 (owned by user 9) gates resource 10 through a club-level grant;
user 1 owns the resource but administers no club at all. -/
def dbC2 : Db :=
  { clubs := [{ id := 2, name := "B", userId := 9, unlisted := false, admins := [] }]
    clubTiers := []
    entityAccess := [clubGrantRow EntityType.ModelVersion 10 9 2]
    avail := [(EntityType.ModelVersion, 10, Availability.Private)]
    entityOwners := [(EntityType.ModelVersion, 10, 1)]
    clubBuzz := []
    ledger := []
    nextTierId := 1 }

/-- The state after user 1 calls `upsertClubResource` with an empty club
list on resource 10. -/
def dbC2after : Db := upsertEmptyResult dbC2 EntityType.ModelVersion 10

/-- Claim C2 counterexample: the completed empty-list call by user 1 — who
administers no club — deletes club 2's grant as well, leaving zero rows, so
the deletion is not restricted to clubs the principal administers. -/
theorem upsertClubResource_empty_scope_counterexample :
    upsertClubResource dbC2 1 false EntityType.ModelVersion 10 [] = .ok dbC2after
    ∧ userContributingClubs dbC2 1 none = []
    ∧ dbC2after.entityAccess = [] :=
  ⟨by decide, by decide, by decide⟩

/-- Witness for `upsertClubResource_empty_scope` at a concrete input. -/
theorem upsertClubResource_empty_scope_witness :
    dbC2after.entityAccess = dbC2.entityAccess.filter (fun a =>
        !(a.accessToId == 10 && a.accessToType == EntityType.ModelVersion &&
          (a.accessorType == AccessorType.Club ||
           (a.accessorType == AccessorType.ClubTier &&
            dbC2.clubTiers.any (fun t => t.id == a.accessorId)))))
    ∧ getAvail dbC2after EntityType.ModelVersion 10 = Availability.Public :=
  ⟨(upsertClubResource_empty_scope dbC2 dbC2after 1 false EntityType.ModelVersion 10
      (by decide)).1,
   (upsertClubResource_empty_scope dbC2 dbC2after 1 false EntityType.ModelVersion 10
      (by decide)).2.1 (by decide)⟩

/-- Club 2 (owned by user 9, with tier 21) gates resource 10 through a
club-level grant; user 1 owns the resource and owns club 1 (tier 11). -/
def dbC4 : Db :=
  { clubs := [{ id := 1, name := "A", userId := 1, unlisted := false, admins := [] },
              { id := 2, name := "B", userId := 9, unlisted := false, admins := [] }]
    clubTiers :=
      [{ id := 11, clubId := 1, name := "A1", unitAmount := 10, unlisted := false,
         joinable := true, memberLimit := none, memberCount := 0 },
       { id := 21, clubId := 2, name := "B1", unitAmount := 10, unlisted := false,
         joinable := true, memberLimit := none, memberCount := 0 }]
    entityAccess := [clubGrantRow EntityType.ModelVersion 10 9 2]
    avail := [(EntityType.ModelVersion, 10, Availability.Private)]
    entityOwners := [(EntityType.ModelVersion, 10, 1)]
    clubBuzz := []
    ledger := []
    nextTierId := 22 }

/-- The state after user 1 grants resource 10 to club 1 generally. -/
def dbC4after : Db :=
  upsertNonemptyResult dbC4 1 EntityType.ModelVersion 10 [{ clubId := 1, clubTierIds := none }]

/-- Witness for `upsertClubResource_scoped_frame`: after granting the
resource to club 1, club 2's grant row is still present and a club-1 row was
added — the resource is gated by both clubs. -/
theorem upsertClubResource_scoped_frame_witness :
    clubGrantRow EntityType.ModelVersion 10 9 2 ∈ dbC4after.entityAccess
    ∧ clubGrantRow EntityType.ModelVersion 10 1 1 ∈ dbC4after.entityAccess :=
  ⟨(upsertClubResource_scoped_frame dbC4 dbC4after 1 false EntityType.ModelVersion 10 2
      [{ clubId := 1, clubTierIds := none }] (clubGrantRow EntityType.ModelVersion 10 9 2)
      (by decide) (by decide) (by decide) (by decide) (by decide) (by decide)
      (by decide)).2.1,
   by decide⟩

/-- Claim C5 counterexample: the grant delete-then-insert, the empty-list
revert-to-public path, the single-club replace, the revoke, and a standalone
tier mutation do not all run as a single transaction with bounded
wait/commit timeouts: the grant replacement transaction passes no timeout
options at all. -/
theorem mutationTransaction_counterexample :
    ¬(singleBoundedTransaction upsertClubResourceReplaceTxShape
      ∧ singleBoundedTransaction upsertClubResourceEmptyPathTxShape
      ∧ singleBoundedTransaction updateClubResourceTxShape
      ∧ singleBoundedTransaction removeClubResourceTxShape
      ∧ singleBoundedTransaction upsertClubTiersStandaloneTxShape) :=
  fun hcl => hcl.1.2.2 rfl

/-- Claim C5 (amended): the non-empty grant replacement, the single-club
replace and the revoke each run inside one `dbWrite.$transaction` callback
but with no wait/commit timeout options; the empty-club-list revert-to-public
path and a standalone `upsertClubTiers` call run outside any transaction;
only `createClub` and `updateClub` pass bounded timeouts (maxWait 10s,
timeout 30s). -/
theorem mutationTransactionShapes :
    upsertClubResourceReplaceTxShape.wrappedInTransaction = true
    ∧ upsertClubResourceReplaceTxShape.maxWait = none
    ∧ upsertClubResourceReplaceTxShape.timeout = none
    ∧ updateClubResourceTxShape.wrappedInTransaction = true
    ∧ updateClubResourceTxShape.timeout = none
    ∧ removeClubResourceTxShape.wrappedInTransaction = true
    ∧ removeClubResourceTxShape.timeout = none
    ∧ upsertClubResourceEmptyPathTxShape.wrappedInTransaction = false
    ∧ upsertClubTiersStandaloneTxShape.wrappedInTransaction = false
    ∧ singleBoundedTransaction createClubTxShape
    ∧ singleBoundedTransaction updateClubTxShape :=
  ⟨rfl, rfl, rfl, rfl, rfl, rfl, rfl, rfl, rfl,
   ⟨rfl, Option.some_ne_none 10000, Option.some_ne_none 30000⟩,
   ⟨rfl, Option.some_ne_none 10000, Option.some_ne_none 30000⟩⟩

/-- Claim C6: whenever `deleteTierIds` targets at least one tier that has a
membership, `upsertClubTiers` fails with a `BadRequestError` and, the failure
happening before any write, the whole state is unchanged. -/
theorem upsertClubTiers_delete_guard (db : Db) (userId : Nat) (isMod : Bool) (clubId : Nat)
    (tiers : List UpsertClubTierInput) (deleteTierIds : List Nat)
    (hmem : ∃ t ∈ db.clubTiers, t.id ∈ deleteTierIds ∧ t.memberCount ≠ 0) :
    ∃ msg, upsertClubTiers db userId isMod clubId tiers deleteTierIds
      = .error (.badRequestError msg) := by
  obtain ⟨t, ht, htd, htm⟩ := hmem
  have hc2 : (!deleteTierIds.isEmpty &&
      db.clubTiers.any (fun tt => deleteTierIds.contains tt.id && !(tt.memberCount == 0)))
        = true := by
    rw [Bool.and_eq_true]
    refine ⟨?_, ?_⟩
    · cases deleteTierIds with
      | nil => exact absurd htd (List.not_mem_nil _)
      | cons a as => rfl
    · refine List.any_eq_true.mpr ⟨t, ht, ?_⟩
      rw [Bool.and_eq_true]
      refine ⟨List.elem_iff.mpr htd, ?_⟩
      simp [htm]
  simp only [upsertClubTiers]
  split_ifs with h1 h2
  · exact ⟨_, rfl⟩
  · exact ⟨_, rfl⟩
  all_goals exact absurd hc2 (by assumption)

/-- Club 1 is owned by user 1; its tier 11 has three members. -/
def dbC6 : Db :=
  { clubs := [{ id := 1, name := "A", userId := 1, unlisted := false, admins := [] }]
    clubTiers := [{ id := 11, clubId := 1, name := "T", unitAmount := 10, unlisted := false,
                    joinable := true, memberLimit := none, memberCount := 3 }]
    entityAccess := []
    avail := []
    entityOwners := []
    clubBuzz := []
    ledger := []
    nextTierId := 12 }

/-- Witness for `upsertClubTiers_delete_guard`: the owner deleting tier 11,
which has members, gets a BadRequestError. -/
theorem upsertClubTiers_delete_guard_witness :
    ∃ msg, upsertClubTiers dbC6 1 false 1 [] [11] = .error (.badRequestError msg) :=
  upsertClubTiers_delete_guard dbC6 1 false 1 [] [11] (by decide)

/-- The head of a list, when present, is a member. -/
theorem mem_of_head?_eq_some {α : Type} {l : List α} {x : α} (h : l.head? = some x) : x ∈ l := by
  cases l with
  | nil => simp at h
  | cons y ys =>
    simp at h
    simp [h]

/-- Claim C7 (amended): a principal who is not the club owner, not a
moderator, and holds no admin row with the ManageTiers permission for the
club cannot call `upsertClubTiers`: the call fails before any write — but
with a `BadRequestError` ("Only club owners can edit club tiers"), because
the authorization check uses `throwBadRequestError`, not the
`AuthorizationError` the claim names. -/
theorem upsertClubTiers_unauthorized (db : Db) (userId clubId : Nat)
    (tiers : List UpsertClubTierInput) (deleteTierIds : List Nat)
    (hown : ∀ club ∈ db.clubs, club.id = clubId → club.userId ≠ userId)
    (hadm : ∀ club ∈ db.clubs, club.id = clubId → ∀ ad ∈ club.admins,
        ad.userId = userId → ¬ ClubAdminPermission.ManageTiers ∈ ad.permissions) :
    upsertClubTiers db userId false clubId tiers deleteTierIds
      = .error (.badRequestError "Only club owners can edit club tiers") := by
  simp only [upsertClubTiers]
  cases huc : (userContributingClubs db userId (some [clubId])).head? with
  | none =>
    split_ifs with hcond
    · rfl
    all_goals exact absurd rfl hcond
  | some uc =>
    have hmem : uc ∈ userContributingClubs db userId (some [clubId]) :=
      mem_of_head?_eq_some huc
    obtain ⟨club, hclubf, hEq⟩ := List.mem_map.mp hmem
    have hclub : club ∈ db.clubs := (List.mem_filter.mp hclubf).1
    have hpred := (List.mem_filter.mp hclubf).2
    simp at hpred
    have hid : club.id = clubId := hpred.1
    have hucu : uc.userId = club.userId := by rw [← hEq]
    have hne : club.userId ≠ userId := hown club hclub hid
    have h1 : (uc.userId == userId) = false := by
      rw [hucu]
      simp [hne]
    have hadfalse : (((uc.admin).map (fun a => a.permissions)).getD []).contains
        ClubAdminPermission.ManageTiers = false := by
      have hadEq : uc.admin = (club.admins.filter (fun a => a.userId == userId)).head? := by
        rw [← hEq]
      cases had : (club.admins.filter (fun a => a.userId == userId)).head? with
      | none =>
        rw [hadEq, had]
        rfl
      | some ad =>
        have hadm2 : ad ∈ club.admins.filter (fun a => a.userId == userId) :=
          mem_of_head?_eq_some had
        have hadmem : ad ∈ club.admins := (List.mem_filter.mp hadm2).1
        have hadu : ad.userId = userId := by
          have hx := (List.mem_filter.mp hadm2).2
          simpa using hx
        have hnp := hadm club hclub hid ad hadmem hadu
        rw [hadEq, had]
        simp [List.elem_iff, hnp]
    split_ifs with hcond
    · rfl
    all_goals
      exfalso
      apply hcond
      show (!(uc.userId == userId) && !false &&
        !(((uc.admin).map (fun a => a.permissions)).getD []).contains
          ClubAdminPermission.ManageTiers) = true
      rw [h1, hadfalse]
      rfl


/-- Claim C7 counterexample: user 2 — not owner of club 1, not a moderator,
holding no admin row — calling `upsertClubTiers` receives a
`BadRequestError`, not an `AuthorizationError` as the claim states. -/
theorem upsertClubTiers_unauthorized_counterexample :
    upsertClubTiers dbC6 2 false 1 [] []
      = .error (.badRequestError "Only club owners can edit club tiers")
    ∧ resultIsAuthorizationError (upsertClubTiers dbC6 2 false 1 [] []) = false :=
  ⟨by decide, by decide⟩

/-- Witness for `upsertClubTiers_unauthorized` at a concrete input. -/
theorem upsertClubTiers_unauthorized_witness :
    upsertClubTiers dbC6 2 false 1 [] []
      = .error (.badRequestError "Only club owners can edit club tiers") :=
  upsertClubTiers_unauthorized dbC6 2 1 [] [] (by decide) (by decide)

/-- Claim C8 (amended): with the early return out of the way, a
non-moderator caller gets the requested tier filters exactly when
`canViewAllTiers` holds, which requires `clubId` to be provided and in the
caller's contributing set and every club of `clubIds` to be in that set;
otherwise `listedOnly` and `joinableOnly` are forced to true.  A moderator
always keeps the requested filters.  In particular a query made only through
`clubIds` (no `clubId`) is always forced for a non-moderator, even when the
caller administers every queried club, because the source checks
`userClubIds.includes(clubId ?? -1)`. -/
theorem getClubTiers_visibility (db : Db) (userId : Option Nat)
    (clubId : Option Nat) (clubIds : Option (List Nat))
    (lo jo : Option Bool) (tierId : Option Nat)
    (hq : ¬(clubId = none ∧ clubIds.getD [] = [])) :
    (canViewAllTiers db userId false clubId clubIds = false →
        getClubTiers db userId false clubId clubIds lo jo tierId
          = tierQuery db clubId clubIds (some true) (some true) tierId)
    ∧ (canViewAllTiers db userId false clubId clubIds = true →
        getClubTiers db userId false clubId clubIds lo jo tierId
          = tierQuery db clubId clubIds lo jo tierId)
    ∧ getClubTiers db userId true clubId clubIds lo jo tierId
        = tierQuery db clubId clubIds lo jo tierId
    ∧ (canViewAllTiers db userId false clubId clubIds = true ↔
        (∃ c, clubId = some c ∧ c ∈ userClubIdsOf db userId)
        ∧ ∀ c2 ∈ clubIds.getD [], c2 ∈ userClubIdsOf db userId) := by
  have hqb : (clubId == none && (clubIds.getD []).isEmpty) = false := by
    cases clubId with
    | some c => rfl
    | none =>
      have hnn : clubIds.getD [] ≠ [] := fun hnil => hq ⟨rfl, hnil⟩
      cases hl : clubIds.getD [] with
      | nil => exact absurd hl hnn
      | cons a as => simp [hl]
  refine ⟨?_, ?_, ?_, ?_⟩
  · intro hcv
    simp [getClubTiers, hqb, hcv]
  · intro hcv
    simp [getClubTiers, hqb, hcv]
  · simp [getClubTiers, hqb, canViewAllTiers]
  · cases clubId with
    | none => simp [canViewAllTiers]
    | some c => simp [canViewAllTiers, List.elem_iff]

/-- User 1 owns club 1, whose only tier 11 is unlisted but joinable. -/
def dbC8 : Db :=
  { clubs := [{ id := 1, name := "A", userId := 1, unlisted := false, admins := [] }]
    clubTiers := [{ id := 11, clubId := 1, name := "T", unitAmount := 10, unlisted := true,
                    joinable := true, memberLimit := none, memberCount := 0 }]
    entityAccess := []
    avail := []
    entityOwners := []
    clubBuzz := []
    ledger := []
    nextTierId := 12 }

/-- Claim C8 counterexample: user 1 is a contributing member of every
queried club (the query names only club 1, which user 1 owns), requests
`listedOnly = false`, yet the result is the forced listed-and-joinable query,
not the requested one — because the query passes `clubIds` without `clubId`,
the filter is forced anyway. -/
theorem getClubTiers_visibility_counterexample :
    userClubIdsOf dbC8 (some 1) = [1]
    ∧ getClubTiers dbC8 (some 1) false none (some [1]) (some false) none none = []
    ∧ tierQuery dbC8 none (some [1]) (some false) none none
        = [{ id := 11, clubId := 1, name := "T", unitAmount := 10, unlisted := true,
             joinable := true, memberLimit := none, memberCount := 0 }] :=
  ⟨by decide, by decide, by decide⟩

/-- Witness for `getClubTiers_visibility` at a concrete input: the same
query is forced to the restrictive filter. -/
theorem getClubTiers_visibility_witness :
    getClubTiers dbC8 (some 1) false none (some [1]) (some false) none none
      = tierQuery dbC8 none (some [1]) (some true) (some true) none :=
  (getClubTiers_visibility dbC8 (some 1) none (some [1]) (some false) none none
      (by decide)).1 (by decide)

/-- Claim C9: a completed `deleteClub` call credits the club's full positive
ledger balance to the owner's account in exactly one transaction (issued
before the club row deletion in the source order) and removes the club row;
with a zero balance or an absent account no ledger transaction is issued. -/
theorem deleteClub_refund (db db2 : Db) (id userId : Nat) (isMod : Bool)
    (h : deleteClub db id userId isMod = .ok db2) :
    (∀ club, db.clubs.find? (fun c => c.id == id) = some club →
        ((0 < (clubBuzzBalance db id).getD 0 →
            db2.ledger = db.ledger ++
              [{ toAccountId := club.userId, fromAccountId := club.id,
                 fromAccountType := AccountType.Club, txType := TxType.Tip,
                 amount := (clubBuzzBalance db id).getD 0 }])
         ∧ ((clubBuzzBalance db id).getD 0 = 0 → db2.ledger = db.ledger)))
    ∧ db2.clubs = db.clubs.filter (fun c => !(c.id == id))
    ∧ db2.entityAccess = db.entityAccess := by
  unfold deleteClub at h
  cases hfind : db.clubs.find? (fun c => c.id == id) with
  | none =>
    rw [hfind] at h
    exact Except.noConfusion h
  | some club =>
    rw [hfind] at h
    dsimp only at h
    split_ifs at h
    all_goals
      first
        | exact Except.noConfusion h
        | (have hdb2 := (Except.ok.inj h).symm
           subst hdb2
           refine ⟨?_, rfl, rfl⟩
           intro club2 hfind2
           have hcc : club2 = club := by
             first
               | exact (Option.some.inj hfind2).symm
               | (rw [hfind] at hfind2
                  exact (Option.some.inj hfind2).symm)
           subst hcc
           first
             | exact ⟨fun _ => rfl,
                 fun hz => absurd (by assumption : 0 < (clubBuzzBalance db id).getD 0)
                   (by rw [hz]; simp)⟩
             | exact ⟨fun hpos => absurd hpos (by assumption), fun _ => rfl⟩)


/-- Club 5 is owned by user 7 and its Buzz account holds 500. -/
def dbC9 : Db :=
  { clubs := [{ id := 5, name := "D", userId := 7, unlisted := false, admins := [] }]
    clubTiers := []
    entityAccess := []
    avail := []
    entityOwners := []
    clubBuzz := [(5, 500)]
    ledger := []
    nextTierId := 1 }

/-- The state after the owner deletes club 5. -/
def dbC9after : Db :=
  { dbC9 with
    clubs := []
    ledger := [{ toAccountId := 7, fromAccountId := 5, fromAccountType := AccountType.Club,
                 txType := TxType.Tip, amount := 500 }] }

/-- Witness for `deleteClub_refund`: deleting club 5 (balance 500) credits
500 to owner 7 in one ledger transaction and removes the club row. -/
theorem deleteClub_refund_witness :
    dbC9after.ledger = dbC9.ledger ++
      [{ toAccountId := 7, fromAccountId := 5, fromAccountType := AccountType.Club,
         txType := TxType.Tip, amount := 500 }]
    ∧ dbC9after.clubs = dbC9.clubs.filter (fun c => !(c.id == 5)) :=
  ⟨((deleteClub_refund dbC9 dbC9after 5 7 false (by decide)).1
      { id := 5, name := "D", userId := 7, unlisted := false, admins := [] }
      (by decide)).1 (by decide),
   (deleteClub_refund dbC9 dbC9after 5 7 false (by decide)).2.1⟩

/-- Claim C10: a caller who is not a moderator, does not own the entity, and
has no contributing-club row for the club hits the unguarded
`userClub.admin` property access in `canRemoveResource`: the JavaScript
evaluation throws a `TypeError` (not the intended `AuthorizationError`), and
no write occurs since the throw precedes every write. -/
theorem removeClubResource_typeError (db : Db) (userId : Nat) (ty : EntityType)
    (eid clubId : Nat)
    (hOwn : entityOwnership db userId ty eid = false)
    (hClub : ∀ club ∈ db.clubs, club.id = clubId →
        club.userId ≠ userId ∧ ∀ ad ∈ club.admins, ad.userId ≠ userId) :
    removeClubResource db userId false ty eid clubId = .error SvcError.typeError := by
  have hnil : userContributingClubs db userId (some [clubId]) = [] := by
    unfold userContributingClubs
    rw [List.map_eq_nil]
    rw [List.filter_eq_nil_iff]
    intro club hclub hp
    simp at hp
    obtain ⟨hid, hor⟩ := hp
    obtain ⟨hno, hnad⟩ := hClub club hclub hid
    cases hor with
    | inl hl => exact hno hl
    | inr hr =>
      obtain ⟨ad, had, hadu⟩ := hr
      exact hnad ad had hadu
  simp only [removeClubResource]
  rw [hnil, hOwn]
  rfl

/-- Club 3 is owned by user 9; resource 10 is gated by club 3 and has no
recorded owner; user 1 has no role anywhere. -/
def dbC10 : Db :=
  { clubs := [{ id := 3, name := "E", userId := 9, unlisted := false, admins := [] }]
    clubTiers := []
    entityAccess := [clubGrantRow EntityType.ModelVersion 10 9 3]
    avail := [(EntityType.ModelVersion, 10, Availability.Private)]
    entityOwners := []
    clubBuzz := []
    ledger := []
    nextTierId := 1 }

/-- Witness for `removeClubResource_typeError` at a concrete input. -/
theorem removeClubResource_typeError_witness :
    removeClubResource dbC10 1 false EntityType.ModelVersion 10 3
      = .error SvcError.typeError :=
  removeClubResource_typeError dbC10 1 EntityType.ModelVersion 10 3 (by decide) (by decide)
